import Mathlib

/-!
Shallow embedding of the `ipywidgets` box / selection-container fragment
(`widget_box.py`, `widget_selectioncontainer.py`).

The embedding models:
- Python values appearing as titles / flags (`PyVal`, with Python truthiness);
- the string-keyed title dictionary (`dictSet` / `dictGet`);
- the selection-container state (`SelectionContainer`) with its operations
  `set_title`, `get_title`, the validated `selected_index` assignment
  (`setSelectedIndex`, mirroring the `_validated_index` trait validator) and
  `append_item`;
- the scoped output-capture helper `capture` (a `contextmanager`), with an
  explicit stack of active output redirections so that resource release on
  every exit path is visible in the state;
- the generator `iter_capture` as an explicit step machine (`genNext`,
  `genThrow`) with the suspension point at `yield i`;
- the `Carousel` box variant with its own `capture` / `append_item`.

Exceptions are explicit values (`PyExc`); a raised exception carries the
post-unwind state so that the effect of `with`-block exits is observable.
-/

/-- Python values that flow through the title / flag parameters. -/
inductive PyVal where
  | noneV : PyVal
  | bool (b : Bool) : PyVal
  | int (i : Int) : PyVal
  | str (s : String) : PyVal
deriving DecidableEq

/-- Python truthiness for the modelled values: `None` and `False` are falsy,
numbers are truthy unless zero, strings are truthy unless empty. -/
def PyVal.truthy : PyVal → Bool
  | .noneV => false
  | .bool b => b
  | .int i => !(i == 0)
  | .str s => !(s == "")

/-- Python `str()` on the modelled values (used for f-string formatting). -/
def PyVal.pyStr : PyVal → String
  | .noneV => "None"
  | .bool b => if b then "True" else "False"
  | .int i => toString i
  | .str s => s

/-- Python exceptions relevant to this fragment. -/
inductive PyExc where
  | traitError (msg : String) : PyExc
  | stopIteration : PyExc
  | keyboardInterrupt : PyExc
  | valueError (msg : String) : PyExc
deriving DecidableEq

/-- Insertion into a Python dict modelled as an association list: an existing
key is overwritten in place, a new key is appended at the end. -/
def dictSet : List (String × PyVal) → String → PyVal → List (String × PyVal)
  | [], k, v => [(k, v)]
  | (k₀, v₀) :: rest, k, v =>
      if k₀ = k then (k, v) :: rest else (k₀, v₀) :: dictSet rest k v

/-- Lookup in a Python dict modelled as an association list. -/
def dictGet : List (String × PyVal) → String → Option PyVal
  | [], _ => none
  | (k₀, v₀) :: rest, k => if k₀ = k then some v₀ else dictGet rest k

/-- A child widget reference.  `output wid kw` is an `Output(**kw)` widget
created by a capture helper (`wid` is a distinguishing identity, since
Python widgets have object identity); `plain wid` is any other widget. -/
inductive Widget where
  | output (wid : Nat) (kw : List (String × PyVal)) : Widget
  | plain (wid : Nat) : Widget
deriving DecidableEq

/-- The object identity of a widget. -/
def Widget.widgetId : Widget → Nat
  | .output w _ => w
  | .plain w => w

/-- State of a `_SelectionContainer`: the `children` tuple, the string-keyed
`_titles` dict, and the `selected_index` trait (`CInt` with
`allow_none=True`). -/
structure SelectionContainer where
  children : List Widget
  titles : List (String × PyVal)
  selected_index : Option Int
deriving DecidableEq

/-- The trait-validated assignment `self.selected_index = v`, embedding the
`_validated_index` validator: `None` and in-bounds indices are accepted,
everything else raises `TraitError('Invalid selection: index out of bounds')`
and leaves the container unchanged.  The second component is the error, if
any. -/
def setSelectedIndex (s : SelectionContainer) (v : Option Int) :
    SelectionContainer × Option String :=
  match v with
  | none => ({ s with selected_index := none }, none)
  | some i =>
      if 0 ≤ i ∧ i < (s.children.length : Int) then
        ({ s with selected_index := some i }, none)
      else
        (s, some "Invalid selection: index out of bounds")

/-- The method `set_title(index, title)`: the index is coerced through
`unicode_type(int(index))` to its decimal string form and used as the dict
key; no bounds check is performed.  (`send_state('_titles')` is a push to the
front end with no effect on the model state.) -/
def SelectionContainer.set_title (s : SelectionContainer) (index : Int)
    (title : PyVal) : SelectionContainer :=
  { s with titles := dictSet s.titles (toString index) title }

/-- The method `get_title(index)`: coerces the index to its decimal string
form and looks it up, returning `None` (here `none`) when no title is set. -/
def SelectionContainer.get_title (s : SelectionContainer) (index : Int) :
    Option PyVal :=
  dictGet s.titles (toString index)

/-- The method `append_item(child, title=None, selected=None)`: appends the
child by whole-tuple replacement (`self.children += (child,)`), then, for a
truthy `title`, calls `set_title(len(self.children) - 1, title)`, then, for a
truthy `selected`, assigns `selected_index = len(self.children) - 1` through
the validator.  The second component is the error from that assignment, if
any. -/
def SelectionContainer.append_item (s : SelectionContainer) (child : Widget)
    (title : PyVal) (selected : PyVal) : SelectionContainer × Option String :=
  let s₁ : SelectionContainer := { s with children := s.children ++ [child] }
  let s₂ : SelectionContainer :=
    if title.truthy then s₁.set_title ((s₁.children.length : Int) - 1) title
    else s₁
  if selected.truthy then setSelectedIndex s₂ (some ((s₂.children.length : Int) - 1))
  else (s₂, none)

/-- Run-time state around a selection container: the container itself, the
stack of currently redirecting `Output` widgets (pushed by `with out:` entry,
popped by its exit), and a supply of fresh widget identities. -/
structure MState where
  container : SelectionContainer
  active : List Nat
  nextId : Nat
deriving DecidableEq

/-- Exit of a `with out:` block: the innermost output redirection stops. -/
def popActive (ms : MState) : MState :=
  { ms with active := ms.active.tail }

/-- Result of running a block of Python code: normal completion or an
exception; both carry the state after all `with`-block exits have run. -/
inductive RunRes where
  | ok (s : MState) : RunRes
  | exc (e : PyExc) (s : MState) : RunRes
deriving DecidableEq

/-- The contextmanager `_SelectionContainer.capture(title, selected, **kw)`:
creates `Output(**kw)`, appends it via `append_item(out, title,
selected=selected)`, then runs the scope body inside `with out:`.  The body
receives the created widget and the state with the redirection active; on
both normal and exceptional completion the redirection is popped
(`Output.__exit__` runs, and the `contextmanager` wrapper re-raises). -/
def capture (st : MState) (title selected : PyVal)
    (kw : List (String × PyVal)) (body : Widget → MState → RunRes) : RunRes :=
  let out := Widget.output st.nextId kw
  let st₁ : MState := { st with nextId := st.nextId + 1 }
  match st₁.container.append_item out title selected with
  | (c, some e) => .exc (.traitError e) { st₁ with container := c }
  | (c, none) =>
      match body out { st₁ with container := c, active := out.widgetId :: st₁.active } with
      | .ok s₂ => .ok (popActive s₂)
      | .exc e s₂ => .exc e (popActive s₂)

/-- The `as_title` argument of `iter_capture`: falsy, truthy non-callable, or
a callable. -/
inductive AsTitle where
  | falsy : AsTitle
  | truthy : AsTitle
  | callable (f : PyVal → PyVal) : AsTitle

/-- The expression `as_title and (as_title(i) if callable(as_title) else i)`:
`none` when `as_title` is falsy (so `if title:` can never fire), otherwise
the computed title value. -/
def evalTitle : AsTitle → PyVal → Option PyVal
  | .falsy, _ => none
  | .truthy, i => some i
  | .callable f, i => some (f i)

/-- Suspension points of the `iter_capture` generator: about to begin a loop
iteration, suspended at `yield i` (with the capture scope of the current
iteration open), or finished. -/
inductive GenPos where
  | loopTop : GenPos
  | atYield : GenPos
  | finished : GenPos
deriving DecidableEq

/-- State of a suspended `iter_capture` generator: the not-yet-consumed
upstream items, the suspension point, and the surrounding run-time state. -/
structure GenState where
  upstream : List PyVal
  pos : GenPos
  ms : MState
deriving DecidableEq

/-- Outcome of resuming the generator once: it yields a value, it finishes
(raising `StopIteration` to the consumer), or an exception escapes.  All
outcomes carry the generator state afterwards. -/
inductive StepResult where
  | yielded (v : PyVal) (g : GenState) : StepResult
  | stopped (g : GenState) : StepResult
  | raised (e : PyExc) (g : GenState) : StepResult
deriving DecidableEq

/-- One execution of the `while True:` loop body of `iter_capture`, entered
at the top of the loop: `with self.capture(**kw) as o:` creates and appends
a fresh `Output` (title and selected are the `None` defaults, so
`append_item` cannot fail) and starts redirecting; then `next(items)` either
raises `StopIteration` (caught, `break`, the `with` exits, the generator
returns) or produces the item, whose title is derived and, when truthy, set
at `len(self.children) - 1`, after which the generator suspends at
`yield i`. -/
def runLoopTop (aT : AsTitle) (kw : List (String × PyVal)) (g : GenState) :
    StepResult :=
  let out := Widget.output g.ms.nextId kw
  let ms₀ : MState := { g.ms with nextId := g.ms.nextId + 1 }
  let ms₁ : MState :=
    { ms₀ with
      container := (ms₀.container.append_item out PyVal.noneV PyVal.noneV).1,
      active := out.widgetId :: ms₀.active }
  match g.upstream with
  | [] => .stopped { upstream := [], pos := .finished, ms := popActive ms₁ }
  | i :: rest =>
      let ms₂ : MState :=
        match evalTitle aT i with
        | some t =>
            if t.truthy then
              { ms₁ with
                container :=
                  ms₁.container.set_title ((ms₁.container.children.length : Int) - 1) t }
            else ms₁
        | none => ms₁
      .yielded i { upstream := rest, pos := .atYield, ms := ms₂ }

/-- `next()` on the suspended generator.  Resuming at `yield i` first leaves
the `try` block and the `with` block of the finished iteration (popping the
redirection) and then runs the next loop iteration; `next()` on a finished
generator raises `StopIteration` again. -/
def genNext (aT : AsTitle) (kw : List (String × PyVal)) (g : GenState) :
    StepResult :=
  match g.pos with
  | .loopTop => runLoopTop aT kw g
  | .atYield => runLoopTop aT kw { g with pos := .loopTop, ms := popActive g.ms }
  | .finished => .stopped g

/-- `generator.throw(e)`: the exception is raised at the suspension point.
At `yield i` it is raised inside the `try`: `StopIteration` and
`KeyboardInterrupt` are caught and `break` ends the loop cleanly (the `with`
block still exits, popping the redirection), while any other exception
propagates out through the `with`-block exits.  Thrown before the first
resume or after the end, the exception propagates immediately. -/
def genThrow (e : PyExc) (g : GenState) : StepResult :=
  match g.pos with
  | .atYield =>
      match e with
      | .stopIteration => .stopped { g with pos := .finished, ms := popActive g.ms }
      | .keyboardInterrupt => .stopped { g with pos := .finished, ms := popActive g.ms }
      | e => .raised e { g with pos := .finished, ms := popActive g.ms }
  | .loopTop => .raised e { g with pos := .finished }
  | .finished => .raised e g

/-- Consume the generator by repeated `next()` until it stops (or fuel runs
out), collecting the yielded values and the final generator state. -/
def drain (aT : AsTitle) (kw : List (String × PyVal)) :
    Nat → GenState → List PyVal × GenState
  | 0, g => ([], g)
  | fuel + 1, g =>
      match genNext aT kw g with
      | .yielded v g₂ =>
          let p := drain aT kw fuel g₂
          (v :: p.1, p.2)
      | .stopped g₂ => ([], g₂)
      | .raised _ g₂ => ([], g₂)

/-- A child of a `Carousel`: an `Output` created by `Carousel.capture`
carries the layout it was constructed with. -/
inductive CWidget where
  | output (wid : Nat) (layout : Nat) : CWidget
  | plain (wid : Nat) : CWidget
deriving DecidableEq

/-- State of a `Carousel` box: the `children` tuple and the class-level
default `output_layout` object (layout objects are modelled as opaque
identities). -/
structure Carousel where
  children : List CWidget
  output_layout : Nat
deriving DecidableEq

/-- Run-time state around a carousel, with the stack of active output
redirections and a fresh-identity supply, as for selection containers. -/
structure CState where
  carousel : Carousel
  active : List Nat
  nextId : Nat
deriving DecidableEq

/-- Result of running a block of code around a carousel. -/
inductive CRunRes where
  | ok (s : CState) : CRunRes
  | exc (e : PyExc) (s : CState) : CRunRes
deriving DecidableEq

/-- The keyword arguments of `Carousel.capture` as far as they affect the
modelled state: an optional explicit `layout` for the created `Output`. -/
structure OutputKw where
  layout : Option Nat
deriving DecidableEq

/-- The method `Carousel.append_item(child)`: appends by whole-tuple
replacement (`self.children += (child,)`). -/
def Carousel.append_item (c : Carousel) (child : CWidget) : Carousel :=
  { c with children := c.children ++ [child] }

/-- The contextmanager `Carousel.capture(**kw)`:
`kw.setdefault('layout', self.output_layout)` fills in the class default
layout only when the caller supplied none, then `Output(**kw)` is created,
appended via `append_item`, and the scope body runs inside `with out:`, whose
exit pops the redirection on both completion paths. -/
def Carousel.capture (st : CState) (kw : OutputKw)
    (body : CWidget → CState → CRunRes) : CRunRes :=
  let layout := kw.layout.getD st.carousel.output_layout
  let out := CWidget.output st.nextId layout
  let st₁ : CState :=
    { st with
      carousel := st.carousel.append_item out,
      active := st.nextId :: st.active,
      nextId := st.nextId + 1 }
  match body out st₁ with
  | .ok s₂ => .ok { s₂ with active := s₂.active.tail }
  | .exc e s₂ => .exc e { s₂ with active := s₂.active.tail }

/-! ### Dictionary lemmas -/

theorem dictGet_dictSet_same (d : List (String × PyVal)) (k : String) (v : PyVal) :
    dictGet (dictSet d k v) k = some v := by
  induction d with
  | nil => simp [dictSet, dictGet]
  | cons p rest ih =>
      obtain ⟨k₀, v₀⟩ := p
      by_cases h : k₀ = k <;> simp [dictSet, dictGet, h, ih]

theorem dictGet_dictSet_ne (d : List (String × PyVal)) (k k' : String) (v : PyVal)
    (h : k' ≠ k) : dictGet (dictSet d k v) k' = dictGet d k' := by
  have h' : k ≠ k' := Ne.symm h
  induction d with
  | nil => simp [dictSet, dictGet, h']
  | cons p rest ih =>
      obtain ⟨k₀, v₀⟩ := p
      by_cases hk : k₀ = k
      · subst hk
        simp [dictSet, dictGet, h']
      · simp [dictSet, dictGet, hk, ih]

theorem dictGet_eq_none (d : List (String × PyVal)) (k : String)
    (h : ∀ p ∈ d, p.1 ≠ k) : dictGet d k = none := by
  induction d with
  | nil => rfl
  | cons p rest ih =>
      obtain ⟨k₀, v₀⟩ := p
      have h₀ : k₀ ≠ k := h (k₀, v₀) (by simp)
      simp only [dictGet, if_neg h₀]
      exact ih fun q hq => h q (by simp [hq])

/-! ### Decimal string keys: distinctness via the last digit -/

theorem toDigitsCore_succ (b fuel n : Nat) (ds : List Char) :
    Nat.toDigitsCore b (fuel + 1) n ds =
      if n / b = 0 then Nat.digitChar (n % b) :: ds
      else Nat.toDigitsCore b fuel (n / b) (Nat.digitChar (n % b) :: ds) := rfl

theorem toDigitsCore_last (b : Nat) :
    ∀ (fuel n : Nat) (ds : List Char),
      ∃ L, Nat.toDigitsCore b (fuel + 1) n ds = L ++ Nat.digitChar (n % b) :: ds := by
  intro fuel
  induction fuel with
  | zero =>
      intro n ds
      refine ⟨[], ?_⟩
      rw [toDigitsCore_succ]
      by_cases h : n / b = 0
      · rw [if_pos h]
        rfl
      · rw [if_neg h]
        rfl
  | succ f ih =>
      intro n ds
      by_cases h : n / b = 0
      · refine ⟨[], ?_⟩
        rw [toDigitsCore_succ, if_pos h]
        rfl
      · obtain ⟨L, hL⟩ := ih (n / b) (Nat.digitChar (n % b) :: ds)
        refine ⟨L ++ [Nat.digitChar (n / b % b)], ?_⟩
        rw [toDigitsCore_succ, if_neg h, hL]
        simp

theorem natRepr_last (n : Nat) :
    ∃ L, Nat.repr n = (L ++ [Nat.digitChar (n % 10)]).asString := by
  obtain ⟨L, hL⟩ := toDigitsCore_last 10 n n []
  exact ⟨L, by simp [Nat.repr, Nat.toDigits, hL]⟩

theorem natRepr_ne_of_mod10_ne {m n : Nat} (h : m % 10 ≠ n % 10) :
    Nat.repr m ≠ Nat.repr n := by
  obtain ⟨L₁, h₁⟩ := natRepr_last m
  obtain ⟨L₂, h₂⟩ := natRepr_last n
  intro he
  rw [h₁, h₂] at he
  have hd : L₁ ++ [Nat.digitChar (m % 10)] = L₂ ++ [Nat.digitChar (n % 10)] := by
    have hdata := congrArg String.data he
    simpa [List.asString] using hdata
  have hc : Nat.digitChar (m % 10) = Nat.digitChar (n % 10) := by
    have hlast := congrArg List.getLast? hd
    simpa using hlast
  have hfin : ∀ a b : Fin 10, Nat.digitChar a.val = Nat.digitChar b.val → a = b := by decide
  have h10m : m % 10 < 10 := Nat.mod_lt _ (by norm_num)
  have h10n : n % 10 < 10 := Nat.mod_lt _ (by norm_num)
  have := hfin ⟨m % 10, h10m⟩ ⟨n % 10, h10n⟩ hc
  exact h (by simpa using congrArg Fin.val this)

theorem toString_intOfNat (n : Nat) : toString ((n : Int)) = Nat.repr n := rfl

theorem toStringInt_ne (a b : Nat) (h : a % 10 ≠ b % 10) :
    toString ((a : Int)) ≠ toString ((b : Int)) := by
  rw [toString_intOfNat, toString_intOfNat]
  exact natRepr_ne_of_mod10_ne h

/-! ### Step characterizations of the `iter_capture` machine -/

theorem runLoopTop_nil (aT : AsTitle) (kw : List (String × PyVal)) (ms : MState) :
    runLoopTop aT kw ⟨[], .loopTop, ms⟩ =
      .stopped ⟨[], .finished,
        ⟨⟨ms.container.children ++ [Widget.output ms.nextId kw],
          ms.container.titles, ms.container.selected_index⟩,
         ms.active, ms.nextId + 1⟩⟩ := rfl

theorem runLoopTop_cons (aT : AsTitle) (kw : List (String × PyVal)) (ms : MState)
    (i : PyVal) (rest : List PyVal) :
    runLoopTop aT kw ⟨i :: rest, .loopTop, ms⟩ =
      .yielded i ⟨rest, .atYield,
        ⟨⟨ms.container.children ++ [Widget.output ms.nextId kw],
          (match evalTitle aT i with
           | some t =>
               if t.truthy then
                 dictSet ms.container.titles
                   (toString
                     (((ms.container.children ++ [Widget.output ms.nextId kw]).length : Int) - 1)) t
               else ms.container.titles
           | none => ms.container.titles),
          ms.container.selected_index⟩,
         ms.nextId :: ms.active, ms.nextId + 1⟩⟩ := by
  have happ : (ms.container.append_item (Widget.output ms.nextId kw) PyVal.noneV PyVal.noneV).1
      = ⟨ms.container.children ++ [Widget.output ms.nextId kw],
         ms.container.titles, ms.container.selected_index⟩ := rfl
  rcases h : evalTitle aT i with _ | t
  · simp only [runLoopTop, h, happ, Widget.widgetId]
  · simp only [runLoopTop, h, happ, Widget.widgetId]
    by_cases ht : t.truthy
    · simp only [ht, if_true, SelectionContainer.set_title]
    · simp only [ht, Bool.false_eq_true, if_false]

theorem runLoopTop_cons_ex (aT : AsTitle) (kw : List (String × PyVal)) (ms : MState)
    (i : PyVal) (rest : List PyVal) :
    ∃ ms₂ : MState,
      runLoopTop aT kw ⟨i :: rest, .loopTop, ms⟩ = .yielded i ⟨rest, .atYield, ms₂⟩ ∧
      ms₂.container.children.length = ms.container.children.length + 1 ∧
      ms₂.active = ms.nextId :: ms.active := by
  refine ⟨_, runLoopTop_cons aT kw ms i rest, ?_, ?_⟩
  · simp
  · rfl

theorem drain_atYield (aT : AsTitle) (kw : List (String × PyVal)) (fuel : Nat)
    (up : List PyVal) (ms : MState) :
    drain aT kw (fuel + 1) ⟨up, .atYield, ms⟩ =
      drain aT kw (fuel + 1) ⟨up, .loopTop, popActive ms⟩ := rfl

theorem drain_succ (aT : AsTitle) (kw : List (String × PyVal)) (fuel : Nat) (g : GenState) :
    drain aT kw (fuel + 1) g =
      match genNext aT kw g with
      | .yielded v g₂ => (v :: (drain aT kw fuel g₂).1, (drain aT kw fuel g₂).2)
      | .stopped g₂ => ([], g₂)
      | .raised _ g₂ => ([], g₂) := rfl

theorem drain_spec (aT : AsTitle) (kw : List (String × PyVal)) :
    ∀ (items : List PyVal) (ms : MState),
      ∃ msf : MState,
        drain aT kw (items.length + 1) ⟨items, .loopTop, ms⟩ = (items, ⟨[], .finished, msf⟩) ∧
        msf.container.children.length = ms.container.children.length + items.length + 1 ∧
        msf.active = ms.active := by
  intro items
  induction items with
  | nil =>
      intro ms
      refine ⟨⟨⟨ms.container.children ++ [Widget.output ms.nextId kw],
               ms.container.titles, ms.container.selected_index⟩, ms.active, ms.nextId + 1⟩,
              ?_, ?_, ?_⟩
      · rw [show ([] : List PyVal).length + 1 = 0 + 1 from rfl, drain_succ,
            show genNext aT kw ⟨[], .loopTop, ms⟩ = _ from runLoopTop_nil aT kw ms]
      · simp
      · rfl
  | cons i rest ih =>
      intro ms
      obtain ⟨ms₂, hstep, hlen, hact⟩ := runLoopTop_cons_ex aT kw ms i rest
      obtain ⟨msf, h₁, h₂, h₃⟩ := ih (popActive ms₂)
      refine ⟨msf, ?_, ?_, ?_⟩
      · rw [show (i :: rest).length + 1 = rest.length + 1 + 1 from by simp, drain_succ,
            show genNext aT kw ⟨i :: rest, .loopTop, ms⟩ = _ from hstep]
        dsimp only
        rw [drain_atYield aT kw rest.length rest ms₂, h₁]
      · simp only [popActive] at h₂
        simp only [List.length_cons]
        omega
      · rw [h₃]
        simp [popActive, hact]

/-! ### Small preservation lemmas -/

theorem set_title_children (s : SelectionContainer) (i : Int) (t : PyVal) :
    (s.set_title i t).children = s.children := rfl

theorem set_title_selected (s : SelectionContainer) (i : Int) (t : PyVal) :
    (s.set_title i t).selected_index = s.selected_index := rfl

theorem setSelectedIndex_children (s : SelectionContainer) (v : Option Int) :
    (setSelectedIndex s v).1.children = s.children := by
  rcases v with _ | i
  · rfl
  · by_cases h : 0 ≤ i ∧ i < (s.children.length : Int) <;> simp [setSelectedIndex, h]

theorem setSelectedIndex_titles (s : SelectionContainer) (v : Option Int) :
    (setSelectedIndex s v).1.titles = s.titles := by
  rcases v with _ | i
  · rfl
  · by_cases h : 0 ≤ i ∧ i < (s.children.length : Int) <;> simp [setSelectedIndex, h]

theorem append_item_children (s : SelectionContainer) (child : Widget) (t sel : PyVal) :
    (s.append_item child t sel).1.children = s.children ++ [child] := by
  unfold SelectionContainer.append_item
  by_cases ht : t.truthy <;> by_cases hs : sel.truthy <;>
    simp [ht, hs, SelectionContainer.set_title, setSelectedIndex_children]

/-- A concrete example container with two plain children, no titles and no
selection, used by the witnesses below. -/
def scEx : SelectionContainer := ⟨[Widget.plain 100, Widget.plain 101], [], none⟩

/-- C1: assigning `selected_index = v` succeeds exactly when `v` is `None` or
`0 <= v < len(children)`; on success a subsequent read returns `v`; on
failure the assignment produces the distinguishable bounds-validation error
`Invalid selection: index out of bounds` and leaves the container, hence the
prior `selected_index`, unchanged. -/
theorem c1_selected_index_validation (s : SelectionContainer) (v : Option Int) :
    ((setSelectedIndex s v).2 = none ↔
      v = none ∨ ∃ i, v = some i ∧ 0 ≤ i ∧ i < (s.children.length : Int)) ∧
    ((setSelectedIndex s v).2 = none → (setSelectedIndex s v).1.selected_index = v) ∧
    ((setSelectedIndex s v).2 ≠ none →
      (setSelectedIndex s v).2 = some "Invalid selection: index out of bounds" ∧
      (setSelectedIndex s v).1 = s) := by
  rcases v with _ | i
  · simp [setSelectedIndex]
  · by_cases h : 0 ≤ i ∧ i < (s.children.length : Int)
    · simp [setSelectedIndex, h]
    · simp [setSelectedIndex, h]

/-- Witness for C1 on a two-child container: index 1 is accepted and read
back, index 5 is rejected with the bounds error and the state is kept. -/
theorem c1_witness :
    (setSelectedIndex scEx (some 1)).2 = none ∧
    (setSelectedIndex scEx (some 1)).1.selected_index = some 1 ∧
    (setSelectedIndex scEx (some 5)).2 = some "Invalid selection: index out of bounds" ∧
    (setSelectedIndex scEx (some 5)).1 = scEx := by
  have h₁ := c1_selected_index_validation scEx (some 1)
  have h₅ := c1_selected_index_validation scEx (some 5)
  have hok : (setSelectedIndex scEx (some 1)).2 = none :=
    h₁.1.mpr (Or.inr ⟨1, rfl, by decide, by decide⟩)
  exact ⟨hok, h₁.2.1 hok, (h₅.2.2 (by decide)).1, (h₅.2.2 (by decide)).2⟩

/-- C7: `set_title i t` followed by `get_title i` returns `t` for every
integer index, including out-of-range ones (there is no bounds validation:
children and selection are untouched and the operation is total); `get_title`
on an index whose decimal-string key is absent returns the `None`
sentinel. -/
theorem c7_title_roundtrip (s : SelectionContainer) (i : Int) (t : PyVal) :
    (s.set_title i t).get_title i = some t ∧
    (s.set_title i t).children = s.children ∧
    (s.set_title i t).selected_index = s.selected_index ∧
    (∀ j : Int, (∀ p ∈ s.titles, p.1 ≠ toString j) → s.get_title j = none) := by
  refine ⟨?_, rfl, rfl, ?_⟩
  · exact dictGet_dictSet_same s.titles (toString i) t
  · intro j hj
    exact dictGet_eq_none s.titles (toString j) hj

/-- Witness for C7: set then get at index 2, a far out-of-range set & get at
index 99 (no error), and the absent sentinel on an untouched index. -/
theorem c7_witness :
    (scEx.set_title 2 (PyVal.str "Page 2")).get_title 2 = some (PyVal.str "Page 2") ∧
    (scEx.set_title 99 (PyVal.str "X")).get_title 99 = some (PyVal.str "X") ∧
    scEx.get_title 99 = none := by
  refine ⟨(c7_title_roundtrip scEx 2 (PyVal.str "Page 2")).1,
          (c7_title_roundtrip scEx 99 (PyVal.str "X")).1,
          (c7_title_roundtrip scEx 0 PyVal.noneV).2.2.2 99 ?_⟩
  intro p hp
  simp [scEx] at hp

/-- C8: appending goes through whole-sequence replacement: the children
field of the result is the old sequence plus the new child at the end, so
the length grows by exactly one and the prefix `children[:-1]` is the prior
sequence unchanged; this holds for `_SelectionContainer.append_item` with
arbitrary title/selected arguments and for `Carousel.append_item`. -/
theorem c8_append_whole_sequence (s : SelectionContainer) (child : Widget)
    (t sel : PyVal) (c : Carousel) (cw : CWidget) :
    (s.append_item child t sel).1.children = s.children ++ [child] ∧
    (s.append_item child t sel).1.children.length = s.children.length + 1 ∧
    (s.append_item child t sel).1.children.dropLast = s.children ∧
    (c.append_item cw).children = c.children ++ [cw] ∧
    (c.append_item cw).children.length = c.children.length + 1 ∧
    (c.append_item cw).children.dropLast = c.children := by
  have h := append_item_children s child t sel
  refine ⟨h, ?_, ?_, rfl, ?_, ?_⟩ <;> simp [h, Carousel.append_item]

theorem setSelectedIndex_ok (s : SelectionContainer) (i : Int)
    (h : 0 ≤ i ∧ i < (s.children.length : Int)) :
    setSelectedIndex s (some i) = ({ s with selected_index := some i }, none) := by
  simp only [setSelectedIndex]
  rw [if_pos h]

/-- C6: `append_item` with truthy title and truthy selected appends the
child first, then stores the title at the new last position, then assigns
`selected_index` to that position — which therefore passes validation (no
error): afterwards the child is last, the title is at its index and
`selected_index` equals that index.  A falsy title leaves the title mapping
untouched; a falsy selected leaves `selected_index` untouched (and no
validation error can occur). -/
theorem c6_append_item_order (s : SelectionContainer) (child : Widget) (t sel : PyVal) :
    (t.truthy = true → sel.truthy = true →
      (s.append_item child t sel).2 = none ∧
      (s.append_item child t sel).1.children = s.children ++ [child] ∧
      (s.append_item child t sel).1.get_title (s.children.length : Int) = some t ∧
      (s.append_item child t sel).1.selected_index = some (s.children.length : Int)) ∧
    (t.truthy = false → (s.append_item child t sel).1.titles = s.titles) ∧
    (sel.truthy = false →
      (s.append_item child t sel).1.selected_index = s.selected_index ∧
      (s.append_item child t sel).2 = none) := by
  have hidx : (((s.children ++ [child]).length : Nat) : Int) - 1 = (s.children.length : Int) := by
    simp
  refine ⟨?_, ?_, ?_⟩
  · intro ht hsel
    have hres : s.append_item child t sel =
        setSelectedIndex
          (SelectionContainer.set_title ⟨s.children ++ [child], s.titles, s.selected_index⟩
            (((s.children ++ [child]).length : Int) - 1) t)
          (some (((s.children ++ [child]).length : Int) - 1)) := by
      simp only [SelectionContainer.append_item]
      rw [if_pos ht, if_pos hsel]
      rfl
    have hcond : 0 ≤ (((s.children ++ [child]).length : Nat) : Int) - 1 ∧
        (((s.children ++ [child]).length : Nat) : Int) - 1 <
          (((SelectionContainer.set_title ⟨s.children ++ [child], s.titles, s.selected_index⟩
            (((s.children ++ [child]).length : Int) - 1) t).children.length : Nat) : Int) := by
      rw [set_title_children]
      simp only [List.length_append, List.length_cons, List.length_nil]
      push_cast
      omega
    rw [hres, setSelectedIndex_ok _ _ hcond]
    refine ⟨rfl, rfl, ?_, ?_⟩
    · show dictGet (dictSet s.titles (toString (((s.children ++ [child]).length : Int) - 1)) t)
        (toString ((s.children.length : Nat) : Int)) = some t
      rw [← hidx]
      exact dictGet_dictSet_same _ _ _
    · show some ((((s.children ++ [child]).length : Nat) : Int) - 1)
        = some ((s.children.length : Nat) : Int)
      rw [hidx]
  · intro ht
    simp only [SelectionContainer.append_item]
    by_cases hs : sel.truthy
    · rw [if_pos hs, setSelectedIndex_titles,
          if_neg (show ¬t.truthy = true by simp [ht])]
    · rw [if_neg hs, if_neg (show ¬t.truthy = true by simp [ht])]
  · intro hs
    simp only [SelectionContainer.append_item]
    rw [if_neg (show ¬sel.truthy = true by simp [hs])]
    by_cases ht : t.truthy
    · rw [if_pos ht]
      exact ⟨rfl, rfl⟩
    · rw [if_neg ht]
      exact ⟨rfl, rfl⟩

/-- Witness for C6: appending a third child with title and selection on the
concrete two-child container, and the two falsy variants. -/
theorem c6_witness :
    (scEx.append_item (Widget.plain 102) (PyVal.str "X") (PyVal.bool true)).2 = none ∧
    (scEx.append_item (Widget.plain 102) (PyVal.str "X") (PyVal.bool true)).1.children
      = scEx.children ++ [Widget.plain 102] ∧
    (scEx.append_item (Widget.plain 102) (PyVal.str "X") (PyVal.bool true)).1.get_title
      (scEx.children.length : Int) = some (PyVal.str "X") ∧
    (scEx.append_item (Widget.plain 102) (PyVal.str "X") (PyVal.bool true)).1.selected_index
      = some (scEx.children.length : Int) ∧
    (scEx.append_item (Widget.plain 102) PyVal.noneV (PyVal.bool true)).1.titles = scEx.titles ∧
    (scEx.append_item (Widget.plain 102) (PyVal.str "X") PyVal.noneV).1.selected_index
      = scEx.selected_index := by
  have h := c6_append_item_order scEx (Widget.plain 102) (PyVal.str "X") (PyVal.bool true)
  have hmain := h.1 (by decide) (by decide)
  have hfalsyT :=
    (c6_append_item_order scEx (Widget.plain 102) PyVal.noneV (PyVal.bool true)).2.1 (by decide)
  have hfalsyS :=
    (c6_append_item_order scEx (Widget.plain 102) (PyVal.str "X") PyVal.noneV).2.2 (by decide)
  exact ⟨hmain.1, hmain.2.1, hmain.2.2.1, hmain.2.2.2, hfalsyT, hfalsyS.1⟩

theorem append_item_titled_out (c₀ : SelectionContainer) (w : Widget) :
    c₀.append_item w (PyVal.str "out") PyVal.noneV =
      (⟨c₀.children ++ [w],
        dictSet c₀.titles (toString (((c₀.children ++ [w]).length : Int) - 1)) (PyVal.str "out"),
        c₀.selected_index⟩, none) := by
  simp only [SelectionContainer.append_item]
  rw [if_pos (show (PyVal.str "out").truthy = true from rfl),
      if_neg (show ¬PyVal.noneV.truthy = true by decide)]
  rfl

theorem capture_titled_out (st : MState) (kw : List (String × PyVal))
    (body : Widget → MState → RunRes) :
    capture st (PyVal.str "out") PyVal.noneV kw body =
      match body (Widget.output st.nextId kw)
        ⟨⟨st.container.children ++ [Widget.output st.nextId kw],
          dictSet st.container.titles
            (toString (((st.container.children ++ [Widget.output st.nextId kw]).length : Int) - 1))
            (PyVal.str "out"),
          st.container.selected_index⟩,
         st.nextId :: st.active, st.nextId + 1⟩ with
      | RunRes.ok s₂ => RunRes.ok (popActive s₂)
      | RunRes.exc e s₂ => RunRes.exc e (popActive s₂) := by
  simp only [capture]
  rw [append_item_titled_out]
  rfl

/-- C4: on a container with two children, `capture(title="out")` appends the
output child and sets its title before the scope body runs, so when the body
raises, the exception propagates while the container keeps its three
children with the third titled `out`, and the output redirection opened by
the scope has been released (the active stack is restored); the normal exit
path releases the redirection as well. -/
theorem c4_capture_exception_path (st : MState) (e : PyExc)
    (kw : List (String × PyVal)) (h2 : st.container.children.length = 2) :
    (∃ st' : MState,
      capture st (PyVal.str "out") PyVal.noneV kw (fun _ s => RunRes.exc e s) =
        RunRes.exc e st' ∧
      st'.container.children.length = 3 ∧
      st'.container.get_title 2 = some (PyVal.str "out") ∧
      st'.active = st.active) ∧
    (∃ st'' : MState,
      capture st (PyVal.str "out") PyVal.noneV kw (fun _ s => RunRes.ok s) =
        RunRes.ok st'' ∧
      st''.active = st.active) := by
  have hkey : (((st.container.children ++ [Widget.output st.nextId kw]).length : Nat) : Int) - 1
      = (2 : Int) := by
    simp [h2]
  constructor
  · refine ⟨⟨⟨st.container.children ++ [Widget.output st.nextId kw],
        dictSet st.container.titles
          (toString (((st.container.children ++ [Widget.output st.nextId kw]).length : Int) - 1))
          (PyVal.str "out"),
        st.container.selected_index⟩, st.active, st.nextId + 1⟩, ?_, ?_, ?_, ?_⟩
    · rw [capture_titled_out]
      rfl
    · simp [h2]
    · show dictGet
        (dictSet st.container.titles
          (toString (((st.container.children ++ [Widget.output st.nextId kw]).length : Int) - 1))
          (PyVal.str "out"))
        (toString (2 : Int)) = some (PyVal.str "out")
      rw [hkey]
      exact dictGet_dictSet_same _ _ _
    · rfl
  · refine ⟨⟨⟨st.container.children ++ [Widget.output st.nextId kw],
        dictSet st.container.titles
          (toString (((st.container.children ++ [Widget.output st.nextId kw]).length : Int) - 1))
          (PyVal.str "out"),
        st.container.selected_index⟩, st.active, st.nextId + 1⟩, ?_, ?_⟩
    · rw [capture_titled_out]
      rfl
    · rfl

/-- A concrete run-time state around the two-child example container. -/
def msEx : MState := ⟨scEx, [], 0⟩

/-- Witness for C4 at the concrete two-child container with a `ValueError`
raised by the scope body. -/
theorem c4_witness :
    (∃ st' : MState,
      capture msEx (PyVal.str "out") PyVal.noneV []
          (fun _ s => RunRes.exc (PyExc.valueError "boom") s) =
        RunRes.exc (PyExc.valueError "boom") st' ∧
      st'.container.children.length = 3 ∧
      st'.container.get_title 2 = some (PyVal.str "out") ∧
      st'.active = msEx.active) ∧
    (∃ st'' : MState,
      capture msEx (PyVal.str "out") PyVal.noneV [] (fun _ s => RunRes.ok s) =
        RunRes.ok st'' ∧
      st''.active = msEx.active) :=
  c4_capture_exception_path msEx (PyExc.valueError "boom") [] (by decide)

/-- C5: `Carousel.capture` creates the output child with the explicitly
supplied layout when there is one and with the class default `output_layout`
otherwise, appends it to the children by whole-sequence replacement, and only
then hands control to the scope body (which sees the appended child); the
redirection entry is popped on both exit paths. -/
theorem c5_carousel_capture_default_layout (st : CState) (kw : OutputKw)
    (body : CWidget → CState → CRunRes) :
    (Carousel.capture st kw body =
      match body (CWidget.output st.nextId (kw.layout.getD st.carousel.output_layout))
          ⟨⟨st.carousel.children ++
              [CWidget.output st.nextId (kw.layout.getD st.carousel.output_layout)],
            st.carousel.output_layout⟩,
           st.nextId :: st.active, st.nextId + 1⟩ with
        | CRunRes.ok s₂ => CRunRes.ok ⟨s₂.carousel, s₂.active.tail, s₂.nextId⟩
        | CRunRes.exc e s₂ => CRunRes.exc e ⟨s₂.carousel, s₂.active.tail, s₂.nextId⟩) ∧
    (kw.layout = none → kw.layout.getD st.carousel.output_layout = st.carousel.output_layout) ∧
    (∀ L, kw.layout = some L → kw.layout.getD st.carousel.output_layout = L) := by
  refine ⟨rfl, ?_, ?_⟩
  · intro h
    rw [h]
    rfl
  · intro L h
    rw [h]
    rfl

/-- A concrete carousel state with one child and default layout tag 5. -/
def cstEx : CState := ⟨⟨[CWidget.plain 0], 5⟩, [], 10⟩

/-- Witness for C5: with no caller-supplied layout the default is used; with
an explicit layout it wins; the capture equation holds at a concrete body. -/
theorem c5_witness :
    (OutputKw.mk none).layout.getD cstEx.carousel.output_layout
      = cstEx.carousel.output_layout ∧
    (OutputKw.mk (some 7)).layout.getD cstEx.carousel.output_layout = 7 ∧
    (Carousel.capture cstEx ⟨none⟩ (fun _ s => CRunRes.ok s) =
      match (fun (_ : CWidget) (s : CState) => CRunRes.ok s)
          (CWidget.output cstEx.nextId
            ((OutputKw.mk none).layout.getD cstEx.carousel.output_layout))
          ⟨⟨cstEx.carousel.children ++
              [CWidget.output cstEx.nextId
                ((OutputKw.mk none).layout.getD cstEx.carousel.output_layout)],
            cstEx.carousel.output_layout⟩,
           cstEx.nextId :: cstEx.active, cstEx.nextId + 1⟩ with
        | CRunRes.ok s₂ => CRunRes.ok ⟨s₂.carousel, s₂.active.tail, s₂.nextId⟩
        | CRunRes.exc e s₂ => CRunRes.exc e ⟨s₂.carousel, s₂.active.tail, s₂.nextId⟩) := by
  have h := c5_carousel_capture_default_layout cstEx ⟨none⟩ (fun _ s => CRunRes.ok s)
  have h₇ := c5_carousel_capture_default_layout cstEx ⟨some 7⟩ (fun _ s => CRunRes.ok s)
  exact ⟨h.2.1 rfl, h₇.2.2 7 rfl, h.1⟩

/-- C3: consuming `iter_capture` to exhaustion over `n` upstream items
yields all of them and appends exactly `n + 1` output children — one per
yielded item plus one final empty child appended by the capture scope of the
terminating iteration, because each iteration appends its child before
`next()` is pulled on the upstream iterator.  The generator finishes with
every opened redirection closed. -/
theorem c3_exhaustion_appends_n_plus_one (aT : AsTitle) (kw : List (String × PyVal))
    (items : List PyVal) (ms : MState) :
    ∃ msf : MState,
      drain aT kw (items.length + 1) ⟨items, .loopTop, ms⟩ = (items, ⟨[], .finished, msf⟩) ∧
      msf.container.children.length = ms.container.children.length + items.length + 1 ∧
      msf.active = ms.active :=
  drain_spec aT kw items ms

/-- C10: a `KeyboardInterrupt` thrown into the generator at the `yield`
suspension point (raised during the caller's scope body) is swallowed — the
iteration stops cleanly, closing the open capture scope, without propagating
the interrupt; the iteration also stops cleanly when the upstream sequence
is exhausted; any other exception thrown during the capture scope (apart
from `StopIteration`, the internal end-of-upstream signal, which is likewise
caught) propagates to the caller uncaught after the scope closes. -/
theorem c10_interrupt_handling :
    (∀ g : GenState, g.pos = GenPos.atYield →
      genThrow PyExc.keyboardInterrupt g =
        .stopped ⟨g.upstream, GenPos.finished, popActive g.ms⟩) ∧
    (∀ (aT : AsTitle) (kw : List (String × PyVal)) (g : GenState),
      g.pos = GenPos.loopTop → g.upstream = [] →
      ∃ msf : MState, genNext aT kw g = .stopped ⟨[], GenPos.finished, msf⟩ ∧
        msf.active = g.ms.active) ∧
    (∀ (e : PyExc) (g : GenState), g.pos = GenPos.atYield →
      e ≠ PyExc.keyboardInterrupt → e ≠ PyExc.stopIteration →
      genThrow e g = .raised e ⟨g.upstream, GenPos.finished, popActive g.ms⟩) := by
  refine ⟨?_, ?_, ?_⟩
  · intro g hpos
    obtain ⟨up, pos, ms⟩ := g
    dsimp only at hpos ⊢
    subst hpos
    rfl
  · intro aT kw g hpos hup
    obtain ⟨up, pos, ms⟩ := g
    dsimp only at hpos hup ⊢
    subst hpos
    subst hup
    exact ⟨_, runLoopTop_nil aT kw ms, rfl⟩
  · intro e g hpos h₁ h₂
    obtain ⟨up, pos, ms⟩ := g
    dsimp only at hpos ⊢
    subst hpos
    cases e
    case traitError msg => rfl
    case stopIteration => exact absurd rfl h₂
    case keyboardInterrupt => exact absurd rfl h₁
    case valueError msg => rfl

/-- A concrete suspended generator state: one remaining upstream item, at
the yield point, capture scope 7 open. -/
def gYieldEx : GenState := ⟨[PyVal.int 1], GenPos.atYield, ⟨scEx, [7], 3⟩⟩

/-- A concrete generator state at the loop top with an exhausted upstream. -/
def gTopEx : GenState := ⟨[], GenPos.loopTop, msEx⟩

/-- Witness for C10: the interrupt is swallowed, exhaustion stops cleanly,
and a `ValueError` thrown at the yield propagates. -/
theorem c10_witness :
    genThrow PyExc.keyboardInterrupt gYieldEx =
      .stopped ⟨gYieldEx.upstream, GenPos.finished, popActive gYieldEx.ms⟩ ∧
    (∃ msf : MState,
      genNext AsTitle.falsy [] gTopEx = .stopped ⟨[], GenPos.finished, msf⟩ ∧
      msf.active = gTopEx.ms.active) ∧
    genThrow (PyExc.valueError "boom") gYieldEx =
      .raised (PyExc.valueError "boom")
        ⟨gYieldEx.upstream, GenPos.finished, popActive gYieldEx.ms⟩ :=
  ⟨c10_interrupt_handling.1 gYieldEx rfl,
   c10_interrupt_handling.2.1 AsTitle.falsy [] gTopEx rfl rfl,
   c10_interrupt_handling.2.2 (PyExc.valueError "boom") gYieldEx rfl (by decide) (by decide)⟩

/-- An empty concrete run-time state. -/
def msZero : MState := ⟨⟨[], [], none⟩, [], 0⟩

/-- A concrete callable `as_title` returning the constant title `T`. -/
def aTitleT : AsTitle := AsTitle.callable (fun _ => PyVal.str "T")

/-- C2 is refuted: on an empty container with one upstream item and a
callable `as_title`, the very step that yields the item has already stored
the derived title at the new child's position 0 — so during the caller's
scope body a title HAS been set for the newly appended child, contradicting
the claim that the yield happens before title derivation. -/
theorem c2_counterexample :
    genNext aTitleT [] ⟨[PyVal.int 1], GenPos.loopTop, msZero⟩ =
      .yielded (PyVal.int 1)
        ⟨[], GenPos.atYield,
         ⟨⟨[Widget.output 0 []], [("0", PyVal.str "T")], none⟩, [0], 1⟩⟩ ∧
    SelectionContainer.get_title ⟨[Widget.output 0 []], [("0", PyVal.str "T")], none⟩ 0 =
      some (PyVal.str "T") := by
  constructor
  · decide
  · decide

/-- C2 (amended): for each upstream item, `iter_capture` derives the title
and, when truthy, stores it at the new child's position BEFORE yielding the
item; at the suspension point — while the caller's scope body runs — the
title mapping already contains the derived title. -/
theorem c2_title_set_before_yield (aT : AsTitle) (kw : List (String × PyVal))
    (ms : MState) (i : PyVal) (rest : List PyVal) :
    ∃ g₁ : GenState,
      genNext aT kw ⟨i :: rest, GenPos.loopTop, ms⟩ = .yielded i g₁ ∧
      g₁.pos = GenPos.atYield ∧
      g₁.ms.container.titles =
        (match evalTitle aT i with
         | some t =>
             if t.truthy then
               dictSet ms.container.titles (toString ((ms.container.children.length : Int))) t
             else ms.container.titles
         | none => ms.container.titles) := by
  refine ⟨_, runLoopTop_cons aT kw ms i rest, rfl, ?_⟩
  have hkey : (((ms.container.children ++ [Widget.output ms.nextId kw]).length : Nat) : Int) - 1
      = ((ms.container.children.length : Nat) : Int) := by
    simp
  dsimp only
  rw [hkey]

/-- One `iter_capture` iteration with a callable `as_title` whose result is
truthy: the upstream item is consumed, the new output child is appended, the
computed title is stored at the new child's position, and the item is
yielded. -/
theorem runLoopTop_cons_titled (f : PyVal → PyVal) (kw : List (String × PyVal))
    (ms : MState) (i : PyVal) (rest : List PyVal) (hf : (f i).truthy = true) :
    runLoopTop (AsTitle.callable f) kw ⟨i :: rest, GenPos.loopTop, ms⟩ =
      .yielded i ⟨rest, GenPos.atYield,
        ⟨⟨ms.container.children ++ [Widget.output ms.nextId kw],
          dictSet ms.container.titles (toString ((ms.container.children.length : Int))) (f i),
          ms.container.selected_index⟩,
         ms.nextId :: ms.active, ms.nextId + 1⟩⟩ := by
  have hkey : (((ms.container.children ++ [Widget.output ms.nextId kw]).length : Nat) : Int) - 1
      = ((ms.container.children.length : Nat) : Int) := by
    simp
  rw [runLoopTop_cons]
  simp only [evalTitle]
  rw [if_pos hf, hkey]

/-- The Python `lambda x: f"n{x}"` of C9: formats the item with an `n`
prefix. -/
def nTitle (v : PyVal) : PyVal := PyVal.str ("n" ++ v.pyStr)

/-- C9: `iterate_capture([10,20,30], as_title=lambda x: f"n{x}")` over a
container with `N` existing children yields 10, 20, 30 in that order, and
after the iteration is exhausted the titles at positions `N`, `N+1`, `N+2`
are `n10`, `n20`, `n30` respectively (the callable is applied to each item
to derive the title, which is set before the yield). -/
theorem c9_iterate_capture_titles (ms : MState) :
    ∃ msf : MState,
      drain (AsTitle.callable nTitle) [] 4
          ⟨[PyVal.int 10, PyVal.int 20, PyVal.int 30], GenPos.loopTop, ms⟩ =
        ([PyVal.int 10, PyVal.int 20, PyVal.int 30], ⟨[], GenPos.finished, msf⟩) ∧
      msf.container.get_title ((ms.container.children.length : Int))
        = some (PyVal.str "n10") ∧
      msf.container.get_title (((ms.container.children.length + 1 : Nat) : Int))
        = some (PyVal.str "n20") ∧
      msf.container.get_title (((ms.container.children.length + 2 : Nat) : Int))
        = some (PyVal.str "n30") := by
  obtain ⟨⟨cs, T, sel⟩, act, nid⟩ := ms
  dsimp only
  have h10 : nTitle (PyVal.int 10) = PyVal.str "n10" := by decide
  have h20 : nTitle (PyVal.int 20) = PyVal.str "n20" := by decide
  have h30 : nTitle (PyVal.int 30) = PyVal.str "n30" := by decide
  have hL1 : (cs ++ [Widget.output nid []]).length = cs.length + 1 := by simp
  have hL2 : ((cs ++ [Widget.output nid []]) ++ [Widget.output (nid + 1) []]).length
      = cs.length + 2 := by simp
  have hne01 : toString ((cs.length : Int)) ≠ toString (((cs.length + 1 : Nat) : Int)) :=
    toStringInt_ne _ _ (by omega)
  have hne02 : toString ((cs.length : Int)) ≠ toString (((cs.length + 2 : Nat) : Int)) :=
    toStringInt_ne _ _ (by omega)
  have hne12 : toString (((cs.length + 1 : Nat) : Int))
      ≠ toString (((cs.length + 2 : Nat) : Int)) :=
    toStringInt_ne _ _ (by omega)
  have e₁ : genNext (AsTitle.callable nTitle) []
      ⟨[PyVal.int 10, PyVal.int 20, PyVal.int 30], GenPos.loopTop, ⟨⟨cs, T, sel⟩, act, nid⟩⟩ =
      .yielded (PyVal.int 10) ⟨[PyVal.int 20, PyVal.int 30], GenPos.atYield,
        ⟨⟨cs ++ [Widget.output nid []],
          dictSet T (toString ((cs.length : Int))) (nTitle (PyVal.int 10)), sel⟩,
         nid :: act, nid + 1⟩⟩ :=
    runLoopTop_cons_titled nTitle [] ⟨⟨cs, T, sel⟩, act, nid⟩ (PyVal.int 10)
      [PyVal.int 20, PyVal.int 30] (by decide)
  have e₂ : genNext (AsTitle.callable nTitle) []
      ⟨[PyVal.int 20, PyVal.int 30], GenPos.atYield,
        ⟨⟨cs ++ [Widget.output nid []],
          dictSet T (toString ((cs.length : Int))) (nTitle (PyVal.int 10)), sel⟩,
         nid :: act, nid + 1⟩⟩ =
      .yielded (PyVal.int 20) ⟨[PyVal.int 30], GenPos.atYield,
        ⟨⟨(cs ++ [Widget.output nid []]) ++ [Widget.output (nid + 1) []],
          dictSet (dictSet T (toString ((cs.length : Int))) (nTitle (PyVal.int 10)))
            (toString (((cs ++ [Widget.output nid []]).length : Int)))
            (nTitle (PyVal.int 20)), sel⟩,
         (nid + 1) :: act, nid + 2⟩⟩ :=
    runLoopTop_cons_titled nTitle []
      ⟨⟨cs ++ [Widget.output nid []],
        dictSet T (toString ((cs.length : Int))) (nTitle (PyVal.int 10)), sel⟩,
       act, nid + 1⟩ (PyVal.int 20) [PyVal.int 30] (by decide)
  have e₃ : genNext (AsTitle.callable nTitle) []
      ⟨[PyVal.int 30], GenPos.atYield,
        ⟨⟨(cs ++ [Widget.output nid []]) ++ [Widget.output (nid + 1) []],
          dictSet (dictSet T (toString ((cs.length : Int))) (nTitle (PyVal.int 10)))
            (toString (((cs ++ [Widget.output nid []]).length : Int)))
            (nTitle (PyVal.int 20)), sel⟩,
         (nid + 1) :: act, nid + 2⟩⟩ =
      .yielded (PyVal.int 30) ⟨[], GenPos.atYield,
        ⟨⟨((cs ++ [Widget.output nid []]) ++ [Widget.output (nid + 1) []])
            ++ [Widget.output (nid + 2) []],
          dictSet (dictSet (dictSet T (toString ((cs.length : Int))) (nTitle (PyVal.int 10)))
              (toString (((cs ++ [Widget.output nid []]).length : Int)))
              (nTitle (PyVal.int 20)))
            (toString ((((cs ++ [Widget.output nid []]) ++ [Widget.output (nid + 1) []]).length : Int)))
            (nTitle (PyVal.int 30)), sel⟩,
         (nid + 2) :: act, nid + 3⟩⟩ :=
    runLoopTop_cons_titled nTitle []
      ⟨⟨(cs ++ [Widget.output nid []]) ++ [Widget.output (nid + 1) []],
        dictSet (dictSet T (toString ((cs.length : Int))) (nTitle (PyVal.int 10)))
          (toString (((cs ++ [Widget.output nid []]).length : Int)))
          (nTitle (PyVal.int 20)), sel⟩,
       act, nid + 2⟩ (PyVal.int 30) [] (by decide)
  have e₄ : genNext (AsTitle.callable nTitle) []
      ⟨[], GenPos.atYield,
        ⟨⟨((cs ++ [Widget.output nid []]) ++ [Widget.output (nid + 1) []])
            ++ [Widget.output (nid + 2) []],
          dictSet (dictSet (dictSet T (toString ((cs.length : Int))) (nTitle (PyVal.int 10)))
              (toString (((cs ++ [Widget.output nid []]).length : Int)))
              (nTitle (PyVal.int 20)))
            (toString ((((cs ++ [Widget.output nid []]) ++ [Widget.output (nid + 1) []]).length : Int)))
            (nTitle (PyVal.int 30)), sel⟩,
         (nid + 2) :: act, nid + 3⟩⟩ =
      .stopped ⟨[], GenPos.finished,
        ⟨⟨(((cs ++ [Widget.output nid []]) ++ [Widget.output (nid + 1) []])
            ++ [Widget.output (nid + 2) []]) ++ [Widget.output (nid + 3) []],
          dictSet (dictSet (dictSet T (toString ((cs.length : Int))) (nTitle (PyVal.int 10)))
              (toString (((cs ++ [Widget.output nid []]).length : Int)))
              (nTitle (PyVal.int 20)))
            (toString ((((cs ++ [Widget.output nid []]) ++ [Widget.output (nid + 1) []]).length : Int)))
            (nTitle (PyVal.int 30)), sel⟩,
         act, nid + 4⟩⟩ :=
    runLoopTop_nil (AsTitle.callable nTitle) []
      ⟨⟨((cs ++ [Widget.output nid []]) ++ [Widget.output (nid + 1) []])
          ++ [Widget.output (nid + 2) []],
        dictSet (dictSet (dictSet T (toString ((cs.length : Int))) (nTitle (PyVal.int 10)))
            (toString (((cs ++ [Widget.output nid []]).length : Int)))
            (nTitle (PyVal.int 20)))
          (toString ((((cs ++ [Widget.output nid []]) ++ [Widget.output (nid + 1) []]).length : Int)))
          (nTitle (PyVal.int 30)), sel⟩,
       act, nid + 3⟩
  refine ⟨⟨⟨(((cs ++ [Widget.output nid []]) ++ [Widget.output (nid + 1) []])
        ++ [Widget.output (nid + 2) []]) ++ [Widget.output (nid + 3) []],
      dictSet (dictSet (dictSet T (toString ((cs.length : Int))) (nTitle (PyVal.int 10)))
          (toString (((cs ++ [Widget.output nid []]).length : Int)))
          (nTitle (PyVal.int 20)))
        (toString ((((cs ++ [Widget.output nid []]) ++ [Widget.output (nid + 1) []]).length : Int)))
        (nTitle (PyVal.int 30)), sel⟩,
     act, nid + 4⟩, ?_, ?_, ?_, ?_⟩
  · rw [show (4 : Nat) = 3 + 1 from rfl, drain_succ, e₁]
    dsimp only
    rw [show (3 : Nat) = 2 + 1 from rfl, drain_succ, e₂]
    dsimp only
    rw [show (2 : Nat) = 1 + 1 from rfl, drain_succ, e₃]
    dsimp only
    rw [show (1 : Nat) = 0 + 1 from rfl, drain_succ, e₄]
  · show dictGet
        (dictSet (dictSet (dictSet T (toString ((cs.length : Int))) (nTitle (PyVal.int 10)))
            (toString (((cs ++ [Widget.output nid []]).length : Int)))
            (nTitle (PyVal.int 20)))
          (toString ((((cs ++ [Widget.output nid []]) ++ [Widget.output (nid + 1) []]).length : Int)))
          (nTitle (PyVal.int 30)))
        (toString ((cs.length : Int))) = some (PyVal.str "n10")
    rw [hL1, hL2, dictGet_dictSet_ne _ _ _ _ hne02, dictGet_dictSet_ne _ _ _ _ hne01,
        dictGet_dictSet_same, h10]
  · show dictGet
        (dictSet (dictSet (dictSet T (toString ((cs.length : Int))) (nTitle (PyVal.int 10)))
            (toString (((cs ++ [Widget.output nid []]).length : Int)))
            (nTitle (PyVal.int 20)))
          (toString ((((cs ++ [Widget.output nid []]) ++ [Widget.output (nid + 1) []]).length : Int)))
          (nTitle (PyVal.int 30)))
        (toString (((cs.length + 1 : Nat) : Int))) = some (PyVal.str "n20")
    rw [hL1, hL2, dictGet_dictSet_ne _ _ _ _ hne12, dictGet_dictSet_same, h20]
  · show dictGet
        (dictSet (dictSet (dictSet T (toString ((cs.length : Int))) (nTitle (PyVal.int 10)))
            (toString (((cs ++ [Widget.output nid []]).length : Int)))
            (nTitle (PyVal.int 20)))
          (toString ((((cs ++ [Widget.output nid []]) ++ [Widget.output (nid + 1) []]).length : Int)))
          (nTitle (PyVal.int 30)))
        (toString (((cs.length + 2 : Nat) : Int))) = some (PyVal.str "n30")
    rw [hL1, hL2, dictGet_dictSet_same, h30]
